import Mathlib

set_option maxRecDepth 4000

namespace ImageGenerator

/-- ASCII whitespace characters removed by Python str.strip. -/
def isPySpace (c : Char) : Bool :=
  c = ' ' || c = '\t' || c = '\n' || c = '\r' || c = '\x0b' || c = '\x0c'

/-- Python str.strip on the underlying character list: drop leading and
trailing whitespace. -/
def pyStripL (l : List Char) : List Char :=
  ((l.dropWhile isPySpace).reverse.dropWhile isPySpace).reverse

/-- Python str.strip. -/
def pyStrip (s : String) : String := String.mk (pyStripL s.data)

/-- Python str.lower (per-character lowering, faithful on ASCII). -/
def pyLower (s : String) : String := String.mk (s.data.map Char.toLower)

/-- Python substring containment: sub in s. -/
def containsSubstr (s sub : String) : Bool := decide (sub.data <:+: s.data)

/-- Python str.startswith. -/
def pyStartsWith (s pre : String) : Bool := decide (pre.data <+: s.data)

/-- MAX_PROMPT_LENGTH = 500 from the source configuration block. -/
def MAX_PROMPT_LENGTH : Nat := 500

/-- BLOCKED_WORDS from the source configuration block. -/
def BLOCKED_WORDS : List String := ["nsfw", "explicit", "nude", "violence", "gore", "sexual"]

/-- The characters stripped by the sanitization step of
validate_prompt_security: less-than, greater-than, the two curly braces
(codepoints 123 and 125) and the backtick (codepoint 96). -/
def DANGEROUS_CHARS : List Char := ['<', '>', Char.ofNat 123, Char.ofNat 125, Char.ofNat 96]

/-- The triple (is_valid, cleaned_prompt, error_message) returned by
validate_prompt_security in the source. -/
structure ValidationOutcome where
  is_valid : Bool
  cleaned_prompt : String
  error_message : Option String
deriving DecidableEq, Repr

/-- Embedding of validate_prompt_security (src/ImageGenerator.py lines
111-139): reject empty input; strip whitespace; reject trimmed length
under 5 or over MAX_PROMPT_LENGTH; reject any case-insensitive blocklist
hit; then silently filter the dangerous characters out of the text and
accept. -/
def validate_prompt_security (prompt : String) : ValidationOutcome :=
  if prompt = "" then
    { is_valid := false, cleaned_prompt := "", error_message := some "Prompt must be a non-empty string" }
  else if (pyStrip prompt).length < 5 then
    { is_valid := false, cleaned_prompt := "", error_message := some "Prompt too short - please be more descriptive" }
  else if (pyStrip prompt).length > MAX_PROMPT_LENGTH then
    { is_valid := false, cleaned_prompt := "",
      error_message := some ("Prompt too long - maximum " ++ toString MAX_PROMPT_LENGTH ++ " characters") }
  else if BLOCKED_WORDS.any (fun w => containsSubstr (pyLower (pyStrip prompt)) w) then
    { is_valid := false, cleaned_prompt := "", error_message := some "Prompt contains inappropriate content" }
  else if (pyStrip prompt).data.any (fun c => DANGEROUS_CHARS.contains c) then
    { is_valid := true,
      cleaned_prompt := String.mk ((pyStrip prompt).data.filter (fun c => !DANGEROUS_CHARS.contains c)),
      error_message := none }
  else
    { is_valid := true, cleaned_prompt := pyStrip prompt, error_message := none }

/-- The three credential configuration origins read by get_api_key_safely,
in order of preference: Streamlit secrets, os.getenv, os.environ. A value
of none models an absent entry. -/
structure KeyConfig where
  streamlit_secret : Option String
  env_var : Option String
  system_env : Option String
deriving DecidableEq, Repr

/-- Python `a or b` on optional strings: an absent or empty string falls
through to the second operand. -/
def pyOr (a b : Option String) : Option String :=
  match a with
  | some s => if s = "" then b else some s
  | none => b

/-- Embedding of get_api_key_safely (src/ImageGenerator.py lines 80-109):
chain the three origins with Python or, reject a missing or empty result,
a result without the sk- head, or one shorter than 20 characters; the
pair (key, error) mirrors the source return value. -/
def get_api_key_safely (cfg : KeyConfig) : Option String × Option String :=
  match pyOr cfg.streamlit_secret (pyOr cfg.env_var cfg.system_env) with
  | none => (none, some "API key not found in environment variables or secrets")
  | some k =>
    if k = "" then (none, some "API key not found in environment variables or secrets")
    else if !pyStartsWith k "sk-" then (none, some "Invalid API key format")
    else if k.length < 20 then (none, some "API key too short - possibly invalid")
    else (some k, none)

/-- The parsed JSON body of an upstream response: the url list under the
data field (empty when absent) and the nested error.message when present. -/
structure JsonBody where
  data_urls : List String
  error_message : Option String
deriving DecidableEq, Repr

/-- An upstream HTTP response: status code, the JSON body when the body
parses as JSON (none models a json() decode failure), and the raw text. -/
structure HttpResponse where
  status_code : Nat
  json_body : Option JsonBody
  text : String
deriving DecidableEq, Repr

/-- The (success, result) pair returned by make_secure_api_request: either
the accumulated image url list or a failure message. -/
inductive ApiResult where
  | success (image_urls : List String)
  | failure (message : String)
deriving DecidableEq, Repr

/-- Python s[:200]. -/
def pyTake (s : String) (n : Nat) : String := String.mk (s.data.take n)

/-- One iteration of the response-handling chain of make_secure_api_request
(src/ImageGenerator.py lines 197-239) for call number i: 200 with data
yields the first url, otherwise the classified failure message. A 200
response whose body fails to parse raises in the source and is caught by
the outer handler as an unexpected error. -/
def handleResponse (i : Nat) (resp : HttpResponse) : Except String String :=
  if resp.status_code = 200 then
    match resp.json_body with
    | some body =>
      if body.data_urls.length > 0 then .ok (body.data_urls.headD "")
      else .error ("No image data returned for image " ++ toString (i + 1))
    | none => .error "Unexpected error: response body is not valid JSON"
  else if resp.status_code = 429 then
    .error "Rate limit exceeded. Please wait before trying again."
  else if resp.status_code = 400 then
    match resp.json_body with
    | some body =>
      if containsSubstr (pyLower (body.error_message.getD "Unknown error")) "content_policy_violation" then
        .error "Content policy violation. Please modify your prompt."
      else if containsSubstr (pyLower (body.error_message.getD "Unknown error")) "billing" then
        .error "Billing issue. Please check your OpenAI account billing."
      else if containsSubstr (pyLower (body.error_message.getD "Unknown error")) "quota" then
        .error "Usage quota exceeded. Please check your OpenAI usage limits."
      else
        .error ("API Error: " ++ body.error_message.getD "Unknown error")
    | none => .error ("Bad request (400). Response: " ++ pyTake resp.text 200)
  else if resp.status_code = 401 then
    .error "Authentication failed. Please check your API key."
  else if resp.status_code = 403 then
    .error "Access denied. Please check your API key permissions."
  else
    match resp.json_body with
    | some body =>
      .error ("API Error (" ++ toString resp.status_code ++ "): " ++ body.error_message.getD "Unknown error")
    | none =>
      .error ("API request failed with status " ++ toString resp.status_code ++ ": " ++ pyTake resp.text 200)

/-- The for i in range(...) loop of make_secure_api_request: n remaining
calls, i calls already issued, acc the urls accumulated so far. The
response oracle gives the upstream response to call number i. Returns the
loop outcome together with the number of calls issued. -/
def requestLoop (responses : Nat → HttpResponse) : Nat → Nat → List String → Except String (List String) × Nat
  | 0, i, acc => (.ok acc, i)
  | n + 1, i, acc =>
    match handleResponse i (responses i) with
    | .ok url => requestLoop responses n (i + 1) (acc ++ [url])
    | .error e => (.error e, i + 1)

/-- Embedding of make_secure_api_request (src/ImageGenerator.py lines
149-245): resolve the credential, abort with its error message before any
HTTP call when it is absent or malformed, otherwise issue exactly two
sequential calls (for i in range(2)) and aggregate. The second component
counts the HTTP calls issued. -/
def make_secure_api_request (cfg : KeyConfig) (responses : Nat → HttpResponse) : ApiResult × Nat :=
  match get_api_key_safely cfg with
  | (none, error) => (.failure (error.getD "API key configuration error"), 0)
  | (some _, _) =>
    match requestLoop responses 2 0 [] with
    | (.ok image_urls, n) =>
      if image_urls.length > 0 then (.success image_urls, n)
      else (.failure "No images were generated successfully", n)
    | (.error e, n) => (.failure e, n)

/-- A well-formed credential configuration used by concrete witnesses. -/
def goodCfg : KeyConfig :=
  { streamlit_secret := some "sk-abcdefghijklmnopqrstu", env_var := none, system_env := none }

/-- A stub upstream that answers every call with status 200 and a one-url
data list; the url differs per call so call order is observable. -/
def stubOk : Nat → HttpResponse := fun i =>
  if i = 0 then { status_code := 200, json_body := some { data_urls := ["url0"], error_message := none }, text := "" }
  else { status_code := 200, json_body := some { data_urls := ["url1"], error_message := none }, text := "" }

/-- A stub upstream that succeeds on the first call and answers 429 on the
second. -/
def stubRate : Nat → HttpResponse := fun i =>
  if i = 0 then { status_code := 200, json_body := some { data_urls := ["url0"], error_message := none }, text := "" }
  else { status_code := 429, json_body := none, text := "" }

/-- A stub upstream that answers 400 with a billing error message. -/
def stub400 : Nat → HttpResponse := fun _ =>
  { status_code := 400,
    json_body := some { data_urls := [], error_message := some "Billing hard limit reached" },
    text := "" }

theorem pyStripL_eq_rdrop (l : List Char) :
    pyStripL l = List.rdropWhile isPySpace (l.dropWhile isPySpace) := rfl

theorem dropWhile_pyStripL (l : List Char) :
    List.dropWhile isPySpace (pyStripL l) = pyStripL l := by
  rw [pyStripL_eq_rdrop]
  have hpre := List.rdropWhile_prefix isPySpace (l.dropWhile isPySpace)
  cases hm : List.rdropWhile isPySpace (l.dropWhile isPySpace) with
  | nil => simp
  | cons a m' =>
    rw [hm] at hpre
    obtain ⟨t, ht⟩ := hpre
    have hfix : List.dropWhile isPySpace (l.dropWhile isPySpace) = l.dropWhile isPySpace :=
      List.dropWhile_idempotent isPySpace l
    rw [← ht] at hfix
    rw [List.cons_append, List.dropWhile_cons] at hfix
    rw [List.dropWhile_cons]
    by_cases hpa : isPySpace a = true
    · exfalso
      rw [if_pos hpa] at hfix
      have hle : (List.dropWhile isPySpace (m' ++ t)).length ≤ (m' ++ t).length :=
        (List.dropWhile_suffix isPySpace).sublist.length_le
      have hlen := congrArg List.length hfix
      simp only [List.length_cons, List.length_append] at hlen hle
      omega
    · rw [if_neg hpa]

theorem pyStripL_idem (l : List Char) : pyStripL (pyStripL l) = pyStripL l := by
  conv_lhs => rw [pyStripL_eq_rdrop (pyStripL l)]
  rw [dropWhile_pyStripL, pyStripL_eq_rdrop l, List.rdropWhile_idempotent]

theorem pyStrip_idem (s : String) : pyStrip (pyStrip s) = pyStrip s := by
  show String.mk (pyStripL (pyStripL s.data)) = String.mk (pyStripL s.data)
  rw [pyStripL_idem]

/-- Claim C7: validate_prompt_security first rejects empty input with the
non-empty-string message; for every non-empty string it answers the
too-short message exactly when the whitespace-trimmed length is below 5,
and the too-long message exactly when the trimmed length exceeds the
configured maximum of 500. -/
theorem validate_length_thresholds :
    validate_prompt_security "" =
      { is_valid := false, cleaned_prompt := "",
        error_message := some "Prompt must be a non-empty string" } ∧
    ∀ s : String, s ≠ "" →
      (((validate_prompt_security s).error_message
          = some "Prompt too short - please be more descriptive") ↔ (pyStrip s).length < 5) ∧
      (((validate_prompt_security s).error_message
          = some "Prompt too long - maximum 500 characters") ↔ (pyStrip s).length > 500) := by
  constructor
  · decide
  · intro s hs
    unfold validate_prompt_security MAX_PROMPT_LENGTH
    rw [if_neg hs]
    split_ifs with h1 h2 h3 h4
    · refine ⟨⟨fun _ => h1, fun _ => rfl⟩, ⟨fun h => absurd h (by decide), fun h => ?_⟩⟩
      omega
    · refine ⟨⟨fun h => absurd h (by decide), fun h => ?_⟩, ⟨fun _ => h2, fun _ => by decide⟩⟩
      omega
    · refine ⟨⟨fun h => absurd h (by decide), fun h => absurd h h1⟩,
        ⟨fun h => absurd h (by decide), fun h => absurd h h2⟩⟩
    · refine ⟨⟨fun h => absurd h (by decide), fun h => absurd h h1⟩,
        ⟨fun h => absurd h (by decide), fun h => absurd h h2⟩⟩
    · refine ⟨⟨fun h => absurd h (by decide), fun h => absurd h h1⟩,
        ⟨fun h => absurd h (by decide), fun h => absurd h h2⟩⟩

/-- Witness for claim C7 at the concrete inputs of the spec example. -/
theorem validate_length_thresholds_witness :
    (validate_prompt_security "hi").error_message
      = some "Prompt too short - please be more descriptive" :=
  ((validate_length_thresholds.2 "hi" (by decide)).1).mpr (by decide)

theorem containsSubstr_eq_true_iff (s sub : String) :
    containsSubstr s sub = true ↔ sub.data <:+: s.data := by
  unfold containsSubstr
  exact decide_eq_true_iff

theorem pyStrip_empty_length : (pyStrip "").length = 0 := by decide

/-- Claim C8: every input whose whitespace-trimmed form has length within
the 5..500 bounds and whose lowercasing contains some word of the fixed
blocklist as a substring is rejected with the inappropriate-content
message. -/
theorem validate_blocked_content (s : String)
    (h5 : 5 ≤ (pyStrip s).length) (h500 : (pyStrip s).length ≤ 500)
    (hw : ∃ w ∈ BLOCKED_WORDS, w.data <:+: (pyLower (pyStrip s)).data) :
    validate_prompt_security s =
      { is_valid := false, cleaned_prompt := "",
        error_message := some "Prompt contains inappropriate content" } := by
  have hs : s ≠ "" := by
    intro h
    rw [h] at h5
    rw [pyStrip_empty_length] at h5
    omega
  have hany : BLOCKED_WORDS.any (fun w => containsSubstr (pyLower (pyStrip s)) w) = true := by
    rw [List.any_eq_true]
    obtain ⟨w, hwmem, hinf⟩ := hw
    exact ⟨w, hwmem, (containsSubstr_eq_true_iff _ _).mpr hinf⟩
  unfold validate_prompt_security MAX_PROMPT_LENGTH
  rw [if_neg hs, if_neg (by omega : ¬(pyStrip s).length < 5),
    if_neg (by omega : ¬(pyStrip s).length > 500), if_pos hany]

/-- Witness for claim C8 at a concrete upper-case blocklist hit. -/
theorem validate_blocked_content_witness :
    validate_prompt_security "Draw NSFW art" =
      { is_valid := false, cleaned_prompt := "",
        error_message := some "Prompt contains inappropriate content" } :=
  validate_blocked_content "Draw NSFW art" (by decide) (by decide) (by decide)

/-- Claim C10: every rejected input comes back with the empty string as the
cleaned-prompt component of the result. -/
theorem validate_failure_empty_cleaned (s : String)
    (h : (validate_prompt_security s).is_valid = false) :
    (validate_prompt_security s).cleaned_prompt = "" := by
  unfold validate_prompt_security at h ⊢
  split_ifs at h ⊢
  · rfl
  · rfl
  · rfl
  · rfl

/-- Witness for claim C10 at a concrete rejected input. -/
theorem validate_failure_empty_cleaned_witness :
    (validate_prompt_security "hi").cleaned_prompt = "" :=
  validate_failure_empty_cleaned "hi" (by decide)

/-- Claim C9: on every accepted input the returned text contains none of
the five dangerous characters, and the presence of those characters never
by itself causes rejection: any input whose trimmed length is within
bounds and whose lowercasing avoids the blocklist is accepted. -/
theorem validate_sanitizes (s : String) :
    ((validate_prompt_security s).is_valid = true →
      ∀ c ∈ (validate_prompt_security s).cleaned_prompt.data,
        DANGEROUS_CHARS.contains c = false) ∧
    (5 ≤ (pyStrip s).length → (pyStrip s).length ≤ 500 →
      (∀ w ∈ BLOCKED_WORDS, ¬(w.data <:+: (pyLower (pyStrip s)).data)) →
      (validate_prompt_security s).is_valid = true) := by
  constructor
  · intro hv c hc
    unfold validate_prompt_security at hv hc
    split_ifs at hv hc with h1 h2 h3 h4 h5
    · have hc' : c ∈ List.filter (fun c => !DANGEROUS_CHARS.contains c) (pyStrip s).data := hc
      have := (List.mem_filter.mp hc').2
      simpa using this
    · have h5' : ((pyStrip s).data.any fun c => DANGEROUS_CHARS.contains c) = false := by
        simpa using h5
      rw [List.any_eq_false] at h5'
      have hc' : c ∈ (pyStrip s).data := hc
      simpa using h5' c hc'
  · intro h5 h500 hblk
    have hs : s ≠ "" := by
      intro h
      rw [h, pyStrip_empty_length] at h5
      omega
    have hany : BLOCKED_WORDS.any (fun w => containsSubstr (pyLower (pyStrip s)) w) = false := by
      rw [List.any_eq_false]
      intro w hw
      rw [Bool.not_eq_true, containsSubstr]
      exact decide_eq_false (hblk w hw)
    unfold validate_prompt_security MAX_PROMPT_LENGTH
    rw [if_neg hs, if_neg (by omega : ¬(pyStrip s).length < 5),
      if_neg (by omega : ¬(pyStrip s).length > 500), if_neg (by simp [hany])]
    split_ifs <;> rfl

/-- Witness for claim C9: a prompt carrying angle brackets is accepted and
its output drops them. -/
theorem validate_sanitizes_witness :
    DANGEROUS_CHARS.contains 'a' = false ∧
    (validate_prompt_security "a <cool> pic").is_valid = true :=
  ⟨(validate_sanitizes "a <cool> pic").1 (by decide) 'a' (by decide),
   (validate_sanitizes "a <cool> pic").2 (by decide) (by decide) (by decide)⟩

/-- Counterexample for claim C1: the character-stripping step runs after
the blocklist and length checks, so an accepted input can yield a cleaned
prompt that contains a blocklisted word (the stripped characters spliced
one apart) or whose length falls below the minimum. -/
theorem validate_invariant_counterexample :
    (validate_prompt_security "ns<fw cat art").is_valid = true ∧
    containsSubstr (pyLower (validate_prompt_security "ns<fw cat art").cleaned_prompt) "nsfw" = true ∧
    "nsfw" ∈ BLOCKED_WORDS ∧
    (validate_prompt_security "<<>>\x7b").is_valid = true ∧
    ((validate_prompt_security "<<>>\x7b").cleaned_prompt).length < 5 := by decide

/-- Claim C1 as amended: on every accepted input the whitespace-trimmed
input text satisfies the length bounds and avoids the blocklist in every
letter case, and the returned cleaned prompt never exceeds the maximum
length; the minimum length and the blocklist are guaranteed only for the
trimmed text before character stripping, not for the returned text. -/
theorem validate_success_invariant (s : String)
    (h : (validate_prompt_security s).is_valid = true) :
    5 ≤ (pyStrip s).length ∧ (pyStrip s).length ≤ 500 ∧
    (∀ w ∈ BLOCKED_WORDS, ¬(w.data <:+: (pyLower (pyStrip s)).data)) ∧
    (validate_prompt_security s).cleaned_prompt.length ≤ 500 := by
  unfold validate_prompt_security MAX_PROMPT_LENGTH at h ⊢
  split_ifs at h ⊢ with h1 h2 h3 h4 h5
  · refine ⟨by omega, by omega, ?_, ?_⟩
    · intro w hw
      intro hinf
      exact h4 (List.any_eq_true.mpr ⟨w, hw, (containsSubstr_eq_true_iff _ _).mpr hinf⟩)
    · show (List.filter (fun c => !DANGEROUS_CHARS.contains c) (pyStrip s).data).length ≤ 500
      have hle : (List.filter (fun c => !DANGEROUS_CHARS.contains c) (pyStrip s).data).length
          ≤ (pyStrip s).data.length := List.length_filter_le _ _
      have hdl : (pyStrip s).data.length = (pyStrip s).length := rfl
      omega
  · refine ⟨by omega, by omega, ?_, ?_⟩
    · intro w hw
      intro hinf
      exact h4 (List.any_eq_true.mpr ⟨w, hw, (containsSubstr_eq_true_iff _ _).mpr hinf⟩)
    · show (pyStrip s).length ≤ 500
      omega

/-- Witness for claim C1 as amended, at an accepted prompt. -/
theorem validate_success_invariant_witness :
    5 ≤ (pyStrip "hello world").length ∧ (pyStrip "hello world").length ≤ 500 ∧
    (∀ w ∈ BLOCKED_WORDS, ¬(w.data <:+: (pyLower (pyStrip "hello world")).data)) ∧
    (validate_prompt_security "hello world").cleaned_prompt.length ≤ 500 :=
  validate_success_invariant "hello world" (by decide)

/-- Counterexample for claim C2: re-validating the sanitized text of an
accepted input can change the result, because stripping can push the text
below the minimum length. -/
theorem validate_idempotent_counterexample :
    (validate_prompt_security "<<ab>>").is_valid = true ∧
    validate_prompt_security ((validate_prompt_security "<<ab>>").cleaned_prompt)
      ≠ validate_prompt_security "<<ab>>" := by decide

/-- Claim C2 as amended: the validator is idempotent on accepted inputs
whose trimmed text contains none of the stripped characters; in general a
second validation of the sanitized text can disagree with the first. -/
theorem validate_idempotent_when_no_dangerous (s : String)
    (hv : (validate_prompt_security s).is_valid = true)
    (hd : ∀ c ∈ (pyStrip s).data, DANGEROUS_CHARS.contains c = false) :
    validate_prompt_security ((validate_prompt_security s).cleaned_prompt)
      = validate_prompt_security s := by
  have hany : (pyStrip s).data.any (fun c => DANGEROUS_CHARS.contains c) = false := by
    rw [List.any_eq_false]
    intro c hc
    simpa using hd c hc
  unfold validate_prompt_security MAX_PROMPT_LENGTH at hv
  split_ifs at hv with h1 h2 h3 h4 h5
  · rw [hany] at h5
    exact absurd h5 (by decide)
  · have hres : validate_prompt_security s =
        { is_valid := true, cleaned_prompt := pyStrip s, error_message := none } := by
      unfold validate_prompt_security MAX_PROMPT_LENGTH
      rw [if_neg h1, if_neg h2, if_neg h3, if_neg h4, if_neg h5]
    rw [hres]
    have hne : pyStrip s ≠ "" := by
      intro h0
      apply h2
      rw [h0]
      decide
    show validate_prompt_security (pyStrip s) = _
    unfold validate_prompt_security MAX_PROMPT_LENGTH
    rw [if_neg hne, pyStrip_idem]
    rw [if_neg h2, if_neg h3, if_neg h4, if_neg h5]

/-- Witness for claim C2 as amended: a whitespace-padded prompt without
stripped characters re-validates to the same result. -/
theorem validate_idempotent_when_no_dangerous_witness :
    validate_prompt_security ((validate_prompt_security "  hello world  ").cleaned_prompt)
      = validate_prompt_security "  hello world  " :=
  validate_idempotent_when_no_dangerous "  hello world  " (by decide) (by decide)

theorem requestLoop_zero (responses : Nat → HttpResponse) (i : Nat) (acc : List String) :
    requestLoop responses 0 i acc = (.ok acc, i) := by
  simp only [requestLoop]

theorem requestLoop_step_ok (responses : Nat → HttpResponse) (n i : Nat) (acc : List String)
    (u : String) (h : handleResponse i (responses i) = .ok u) :
    requestLoop responses (n + 1) i acc = requestLoop responses n (i + 1) (acc ++ [u]) := by
  simp only [requestLoop, h]

theorem requestLoop_step_err (responses : Nat → HttpResponse) (n i : Nat) (acc : List String)
    (e : String) (h : handleResponse i (responses i) = .error e) :
    requestLoop responses (n + 1) i acc = (.error e, i + 1) := by
  simp only [requestLoop, h]

theorem make_secure_eq_of_no_key (cfg : KeyConfig) (responses : Nat → HttpResponse)
    (e : Option String) (h : get_api_key_safely cfg = (none, e)) :
    make_secure_api_request cfg responses = (.failure (e.getD "API key configuration error"), 0) := by
  unfold make_secure_api_request
  rw [h]

theorem make_secure_eq_of_key (cfg : KeyConfig) (responses : Nat → HttpResponse)
    (k : String) (e : Option String) (h : get_api_key_safely cfg = (some k, e)) :
    make_secure_api_request cfg responses =
      (match requestLoop responses 2 0 [] with
       | (.ok image_urls, n) =>
         if image_urls.length > 0 then (ApiResult.success image_urls, n)
         else (ApiResult.failure "No images were generated successfully", n)
       | (.error e, n) => (ApiResult.failure e, n)) := by
  unfold make_secure_api_request
  rw [h]

theorem get_api_key_of_some (cfg : KeyConfig) (k : String)
    (hres : pyOr cfg.streamlit_secret (pyOr cfg.env_var cfg.system_env) = some k) :
    get_api_key_safely cfg =
      (if k = "" then (none, some "API key not found in environment variables or secrets")
       else if !pyStartsWith k "sk-" then (none, some "Invalid API key format")
       else if k.length < 20 then (none, some "API key too short - possibly invalid")
       else (some k, none)) := by
  unfold get_api_key_safely
  rw [hres]

theorem handleResponse_ok (i : Nat) (r : HttpResponse) (b : JsonBody)
    (h200 : r.status_code = 200) (hb : r.json_body = some b) (hne : b.data_urls ≠ []) :
    handleResponse i r = .ok (b.data_urls.headD "") := by
  unfold handleResponse
  rw [h200, hb]
  have hp : b.data_urls.length > 0 := List.length_pos.mpr hne
  simp [hp]

theorem handleResponse_429 (i : Nat) (r : HttpResponse) (h : r.status_code = 429) :
    handleResponse i r = .error "Rate limit exceeded. Please wait before trying again." := by
  unfold handleResponse
  rw [h]
  norm_num

theorem handleResponse_400_eq (i : Nat) (r : HttpResponse) (b : JsonBody)
    (h : r.status_code = 400) (hb : r.json_body = some b) :
    handleResponse i r =
      (if containsSubstr (pyLower (b.error_message.getD "Unknown error")) "content_policy_violation" then
        .error "Content policy violation. Please modify your prompt."
      else if containsSubstr (pyLower (b.error_message.getD "Unknown error")) "billing" then
        .error "Billing issue. Please check your OpenAI account billing."
      else if containsSubstr (pyLower (b.error_message.getD "Unknown error")) "quota" then
        .error "Usage quota exceeded. Please check your OpenAI usage limits."
      else .error ("API Error: " ++ b.error_message.getD "Unknown error")) := by
  unfold handleResponse
  rw [h, hb]
  norm_num

/-- Counterexample for claim C3: the image count is not a parameter of the
request pipeline; the source loops for i in range(2), so even with an
upstream able to serve a locator on every call the result holds exactly 2
locators, never the 3 the claim instantiates. -/
theorem generate_count_counterexample :
    make_secure_api_request goodCfg stubOk = (.success ["url0", "url1"], 2) ∧
    (["url0", "url1"] : List String).length ≠ 3 := by decide

/-- Claim C3 as amended: the count is fixed at 2 by the code. When the
credential resolves and both calls answer 200 with a non-empty data list,
the result is Success with exactly the two first locators in call order,
after exactly 2 issued calls. -/
theorem generate_success_two_locators (cfg : KeyConfig) (responses : Nat → HttpResponse)
    (k : String) (e : Option String) (hk : get_api_key_safely cfg = (some k, e))
    (b0 b1 : JsonBody)
    (h0 : (responses 0).status_code = 200) (hb0 : (responses 0).json_body = some b0)
    (hn0 : b0.data_urls ≠ [])
    (h1 : (responses 1).status_code = 200) (hb1 : (responses 1).json_body = some b1)
    (hn1 : b1.data_urls ≠ []) :
    make_secure_api_request cfg responses
      = (.success [b0.data_urls.headD "", b1.data_urls.headD ""], 2) := by
  rw [make_secure_eq_of_key cfg responses k e hk,
    requestLoop_step_ok responses 1 0 [] _ (handleResponse_ok 0 (responses 0) b0 h0 hb0 hn0),
    requestLoop_step_ok responses 0 1 _ _ (handleResponse_ok 1 (responses 1) b1 h1 hb1 hn1),
    requestLoop_zero]
  rfl

/-- Witness for claim C3 as amended, on the all-success stub upstream. -/
theorem generate_success_two_locators_witness :
    make_secure_api_request goodCfg stubOk = (.success ["url0", "url1"], 2) := by
  rw [generate_success_two_locators goodCfg stubOk "sk-abcdefghijklmnopqrstu" none (by decide)
    { data_urls := ["url0"], error_message := none }
    { data_urls := ["url1"], error_message := none }
    (by decide) (by decide) (by decide) (by decide) (by decide) (by decide)]
  rfl

/-- Claim C4: a 429 answer aborts the loop at that call: with a resolved
credential, a 429 on the first call ends the run after 1 issued call, and
a 429 on the second call (after a successful first) ends it after 2; in
both cases the result is the rate-limited failure, which carries only the
message and exposes none of the accumulated locators. -/
theorem generate_rate_limited (cfg : KeyConfig) (responses : Nat → HttpResponse)
    (k : String) (e : Option String) (hk : get_api_key_safely cfg = (some k, e)) :
    ((responses 0).status_code = 429 →
      make_secure_api_request cfg responses
        = (.failure "Rate limit exceeded. Please wait before trying again.", 1)) ∧
    (∀ b0 : JsonBody, (responses 0).status_code = 200 → (responses 0).json_body = some b0 →
      b0.data_urls ≠ [] → (responses 1).status_code = 429 →
      make_secure_api_request cfg responses
        = (.failure "Rate limit exceeded. Please wait before trying again.", 2)) := by
  constructor
  · intro h429
    rw [make_secure_eq_of_key cfg responses k e hk,
      requestLoop_step_err responses 1 0 [] _ (handleResponse_429 0 (responses 0) h429)]
  · intro b0 h0 hb0 hn0 h429
    rw [make_secure_eq_of_key cfg responses k e hk,
      requestLoop_step_ok responses 1 0 [] _ (handleResponse_ok 0 (responses 0) b0 h0 hb0 hn0),
      requestLoop_step_err responses 0 1 _ _ (handleResponse_429 1 (responses 1) h429)]

/-- Witness for claim C4: the stub upstream that answers 429 on the second
of the calls. -/
theorem generate_rate_limited_witness :
    make_secure_api_request goodCfg stubRate
      = (.failure "Rate limit exceeded. Please wait before trying again.", 2) :=
  (generate_rate_limited goodCfg stubRate "sk-abcdefghijklmnopqrstu" none (by decide)).2
    { data_urls := ["url0"], error_message := none }
    (by decide) (by decide) (by decide) (by decide)

/-- Claim C5: a 400 answer on the first call is classified by substring
match on the lowercased nested error message, testing
content_policy_violation, then billing, then quota, in that order, and
otherwise failing with the message itself. -/
theorem generate_400_classification (cfg : KeyConfig) (responses : Nat → HttpResponse)
    (k : String) (e : Option String) (hk : get_api_key_safely cfg = (some k, e))
    (b : JsonBody) (h400 : (responses 0).status_code = 400)
    (hb : (responses 0).json_body = some b) :
    (containsSubstr (pyLower (b.error_message.getD "Unknown error")) "content_policy_violation" = true →
      make_secure_api_request cfg responses
        = (.failure "Content policy violation. Please modify your prompt.", 1)) ∧
    (containsSubstr (pyLower (b.error_message.getD "Unknown error")) "content_policy_violation" = false →
     containsSubstr (pyLower (b.error_message.getD "Unknown error")) "billing" = true →
      make_secure_api_request cfg responses
        = (.failure "Billing issue. Please check your OpenAI account billing.", 1)) ∧
    (containsSubstr (pyLower (b.error_message.getD "Unknown error")) "content_policy_violation" = false →
     containsSubstr (pyLower (b.error_message.getD "Unknown error")) "billing" = false →
     containsSubstr (pyLower (b.error_message.getD "Unknown error")) "quota" = true →
      make_secure_api_request cfg responses
        = (.failure "Usage quota exceeded. Please check your OpenAI usage limits.", 1)) ∧
    (containsSubstr (pyLower (b.error_message.getD "Unknown error")) "content_policy_violation" = false →
     containsSubstr (pyLower (b.error_message.getD "Unknown error")) "billing" = false →
     containsSubstr (pyLower (b.error_message.getD "Unknown error")) "quota" = false →
      make_secure_api_request cfg responses
        = (.failure ("API Error: " ++ b.error_message.getD "Unknown error"), 1)) := by
  refine ⟨fun hcpv => ?_, fun hcpv hbil => ?_, fun hcpv hbil hq => ?_, fun hcpv hbil hq => ?_⟩
  · rw [make_secure_eq_of_key cfg responses k e hk,
      requestLoop_step_err responses 1 0 [] _
        (by rw [handleResponse_400_eq 0 (responses 0) b h400 hb, if_pos hcpv])]
  · rw [make_secure_eq_of_key cfg responses k e hk,
      requestLoop_step_err responses 1 0 [] _
        (by rw [handleResponse_400_eq 0 (responses 0) b h400 hb,
          if_neg (by simp [hcpv]), if_pos hbil])]
  · rw [make_secure_eq_of_key cfg responses k e hk,
      requestLoop_step_err responses 1 0 [] _
        (by rw [handleResponse_400_eq 0 (responses 0) b h400 hb,
          if_neg (by simp [hcpv]), if_neg (by simp [hbil]), if_pos hq])]
  · rw [make_secure_eq_of_key cfg responses k e hk,
      requestLoop_step_err responses 1 0 [] _
        (by rw [handleResponse_400_eq 0 (responses 0) b h400 hb,
          if_neg (by simp [hcpv]), if_neg (by simp [hbil]), if_neg (by simp [hq])])]

/-- Witness for claim C5: a 400 answer whose message mentions billing is
classified as the billing failure. -/
theorem generate_400_classification_witness :
    make_secure_api_request goodCfg stub400
      = (.failure "Billing issue. Please check your OpenAI account billing.", 1) :=
  (generate_400_classification goodCfg stub400 "sk-abcdefghijklmnopqrstu" none (by decide)
    { data_urls := [], error_message := some "Billing hard limit reached" }
    (by decide) (by decide)).2.1 (by decide) (by decide)

/-- Claim C6: when the ordered configuration origins yield no credential
(or an empty one) the pipeline fails with the missing-credential message,
and when they yield one without the sk- head or shorter than 20 characters
it fails with the corresponding malformed-credential message; in every
case 0 HTTP calls are issued. -/
theorem credential_failures (cfg : KeyConfig) (responses : Nat → HttpResponse) :
    (pyOr cfg.streamlit_secret (pyOr cfg.env_var cfg.system_env) = none ∨
        pyOr cfg.streamlit_secret (pyOr cfg.env_var cfg.system_env) = some "" →
      make_secure_api_request cfg responses
        = (.failure "API key not found in environment variables or secrets", 0)) ∧
    (∀ k : String, pyOr cfg.streamlit_secret (pyOr cfg.env_var cfg.system_env) = some k →
      k ≠ "" → pyStartsWith k "sk-" = false →
      make_secure_api_request cfg responses = (.failure "Invalid API key format", 0)) ∧
    (∀ k : String, pyOr cfg.streamlit_secret (pyOr cfg.env_var cfg.system_env) = some k →
      k ≠ "" → pyStartsWith k "sk-" = true → k.length < 20 →
      make_secure_api_request cfg responses
        = (.failure "API key too short - possibly invalid", 0)) := by
  refine ⟨fun h => ?_, fun k hres hk0 hsw => ?_, fun k hres hk0 hsw hlen => ?_⟩
  · have hget : get_api_key_safely cfg
        = (none, some "API key not found in environment variables or secrets") := by
      rcases h with h | h
      · unfold get_api_key_safely
        rw [h]
      · rw [get_api_key_of_some cfg "" h, if_pos rfl]
    rw [make_secure_eq_of_no_key cfg responses _ hget]
    rfl
  · have hget : get_api_key_safely cfg = (none, some "Invalid API key format") := by
      rw [get_api_key_of_some cfg k hres, if_neg hk0, if_pos (by rw [hsw]; rfl)]
    rw [make_secure_eq_of_no_key cfg responses _ hget]
    rfl
  · have hget : get_api_key_safely cfg = (none, some "API key too short - possibly invalid") := by
      rw [get_api_key_of_some cfg k hres, if_neg hk0, if_neg (by rw [hsw]; simp), if_pos hlen]
    rw [make_secure_eq_of_no_key cfg responses _ hget]
    rfl

/-- Witness for claim C6: a missing credential, a wrong-head credential and
a short credential each fail before any HTTP call. -/
theorem credential_failures_witness :
    make_secure_api_request { streamlit_secret := none, env_var := none, system_env := none } stubOk
      = (.failure "API key not found in environment variables or secrets", 0) ∧
    make_secure_api_request { streamlit_secret := some "pk-wrongwrongwrongwrong", env_var := none, system_env := none } stubOk
      = (.failure "Invalid API key format", 0) ∧
    make_secure_api_request { streamlit_secret := some "sk-short", env_var := none, system_env := none } stubOk
      = (.failure "API key too short - possibly invalid", 0) :=
  ⟨(credential_failures _ stubOk).1 (Or.inl (by decide)),
   (credential_failures _ stubOk).2.1 "pk-wrongwrongwrongwrong" (by decide) (by decide) (by decide),
   (credential_failures _ stubOk).2.2 "sk-short" (by decide) (by decide) (by decide) (by decide)⟩

end ImageGenerator
